import Mathlib

/-!
Verification of the conversation-session / grammar-correction core of the
RealTimeSpeakingPartner server.

The definitions below are a shallow embedding of the TypeScript source:

* `src/server.ts`, `/api/session/chat` handler (lines 1041-1720): correction
  detection, fragment extraction, category assignment, counters and score;
* `src/server.ts`, `/api/session/start` (lines 830-999) and
  `/api/session/end` (lines 1723-1815) together with
  `SessionController` (session state flags);
* `src/engines/AIEngine.ts`, `analyzeAndRespond` (failure fallback);
* `src/engines/FeedbackEngine.ts`, `evaluateGrammar` and
  `analyzeSentenceStructure`.

JavaScript strings are modelled as Lean `String`/`List Char`; JavaScript
regular expressions are modelled by a small backtracking matcher (`matchSeq`)
over an abstract syntax that covers exactly the constructs the source uses
(literals, character classes with greedy `?`/`*`/`+`, groups, alternation,
word boundaries).  The matcher takes fuel; fuel bounds only the recursion
depth, which is linear in input size for these patterns, so the generous
budget used by `regexSearch` never runs out on the inputs evaluated here.
Numbers kept by the counters are naturals; `Math.round` on the nonnegative
rationals involved is `⌊x + 1/2⌋`, embedded in exact arithmetic.
-/

namespace RTSP

/-! ## JavaScript string primitives -/

/-- Whitespace recognised by JavaScript `\s`, `String.prototype.trim` and
`split(/\s+/)` (ASCII part plus NBSP; the exotic Unicode space code points
never occur in the data handled here). -/
def isJsSpace (c : Char) : Bool :=
  c == ' ' || c == '\t' || c == '\n' || c == '\r' ||
  c == '\x0b' || c == '\x0c' || c.val == 0xa0

/-- JavaScript `String.prototype.trim`. -/
def jsTrim (s : String) : String :=
  String.mk (((s.toList.dropWhile isJsSpace).reverse.dropWhile isJsSpace).reverse)

/-- Substring test on char lists (`needle` occurs inside `hay`). -/
def containsSub (hay needle : List Char) : Bool :=
  match hay with
  | [] => needle.isEmpty
  | _ :: t => needle.isPrefixOf hay || containsSub t needle

/-- JavaScript `hay.includes(needle)`. -/
def jsIncludes (hay needle : String) : Bool :=
  containsSub hay.toList needle.toList

/-- JavaScript `toLowerCase` (the data handled here is ASCII). -/
def jsToLower (s : String) : String :=
  String.mk (s.toList.map Char.toLower)

/-- JavaScript `s.startsWith(pre)`. -/
def jsStartsWith (s pre : String) : Bool :=
  pre.toList.isPrefixOf s.toList

/-- JavaScript `s.endsWith(suf)`. -/
def jsEndsWith (s suf : String) : Bool :=
  suf.toList.isSuffixOf s.toList

/-- JavaScript truthiness of an optional string (`undefined`, `null` and the
empty string are falsy). -/
def truthy : Option String → Bool
  | some s => s ≠ ""
  | none => false

/-- JavaScript `a || b || ... || d` over optional strings, returning the
first truthy operand, else the default `d`. -/
def firstTruthyStr : List (Option String) → String → String
  | [], d => d
  | x :: rest, d => match x with
    | some s => if s = "" then firstTruthyStr rest d else s
    | none => firstTruthyStr rest d

/-- JavaScript `x || null` for an optional string. -/
def jsOrNull (o : Option String) : Option String :=
  if truthy o then o else none

/-- Template-literal rendering of a possibly-undefined string
(`${undefined}` prints as `undefined`). -/
def optJsStr (o : Option String) : String :=
  o.getD "undefined"

/-! ## Regular-expression engine

Covers the constructs used by the regexes of `server.ts` and
`FeedbackEngine.ts`: case-insensitive literals, character classes (`\s`,
`\w`, sets, negated sets) with greedy `?`, `*`, `+`, capture groups,
alternation, optional non-capturing groups, and `\b`.  Matching is
backtracking leftmost-first, like the JavaScript engine. -/

/-- One item of a character class. -/
inductive CCItem where
  | ch (c : Char)
  | space
  | word
deriving DecidableEq

/-- A character class: a positive or negated set of items. -/
structure CC where
  pos : Bool
  items : List CCItem
deriving DecidableEq

/-- JavaScript `\w`. -/
def isWordChar (c : Char) : Bool :=
  ('a' ≤ c && c ≤ 'z') || ('A' ≤ c && c ≤ 'Z') || ('0' ≤ c && c ≤ '9') || c == '_'

/-- Case folding used when a regex carries the `i` flag. -/
def foldCase (ci : Bool) (c : Char) : Char :=
  if ci then c.toLower else c

def ccItemMatch (ci : Bool) (it : CCItem) (c : Char) : Bool :=
  match it with
  | .ch d => foldCase ci c == foldCase ci d
  | .space => isJsSpace c
  | .word => isWordChar c

def ccMatch (ci : Bool) (cc : CC) (c : Char) : Bool :=
  let m := cc.items.any (fun it => ccItemMatch ci it c)
  if cc.pos then m else !m

/-- Greedy quantifiers over a character class. -/
inductive Quant where
  | one | opt | star | plus
deriving DecidableEq

/-- Regex abstract syntax (a regex is a `List RE`, i.e. a sequence). -/
inductive RE where
  | lit (s : List Char)
  | cls (c : CC) (q : Quant)
  | grp (idx : Nat) (rs : List RE)
  | alt (bs : List (List RE))
  | optSeq (rs : List RE)
  | wb

/-- Captured groups, most recent first. -/
abbrev Caps := List (Nat × List Char)

/-- Backtracking matcher in continuation-passing style.  `prev` is the
character just before the current position (for `\b`).  The continuation
receives the rest of the input, the new `prev` and the captures; the overall
result is the rest of the input after the whole match plus the captures.
Fuel bounds recursion depth only. -/
def matchSeq (ci : Bool) :
    Nat → List RE → List Char → Option Char → Caps →
    (List Char → Option Char → Caps → Option (List Char × Caps)) →
    Option (List Char × Caps)
  | 0, _, _, _, _, _ => none
  | _ + 1, [], s, prev, caps, k => k s prev caps
  | fuel + 1, .lit [] :: rs, s, prev, caps, k => matchSeq ci fuel rs s prev caps k
  | fuel + 1, .lit (c :: cs) :: rs, s, _, caps, k =>
    match s with
    | [] => none
    | x :: xs =>
      if foldCase ci x == foldCase ci c then
        matchSeq ci fuel (.lit cs :: rs) xs (some x) caps k
      else none
  | fuel + 1, .cls cc q :: rs, s, prev, caps, k =>
    match q with
    | .one =>
      match s with
      | [] => none
      | x :: xs =>
        if ccMatch ci cc x then matchSeq ci fuel rs xs (some x) caps k else none
    | .opt =>
      (match s with
       | [] => none
       | x :: xs =>
         if ccMatch ci cc x then matchSeq ci fuel rs xs (some x) caps k else none).orElse
        (fun _ => matchSeq ci fuel rs s prev caps k)
    | .plus =>
      match s with
      | [] => none
      | x :: xs =>
        if ccMatch ci cc x then
          matchSeq ci fuel (.cls cc .star :: rs) xs (some x) caps k
        else none
    | .star =>
      (match s with
       | [] => none
       | x :: xs =>
         if ccMatch ci cc x then
           matchSeq ci fuel (.cls cc .star :: rs) xs (some x) caps k
         else none).orElse
        (fun _ => matchSeq ci fuel rs s prev caps k)
  | fuel + 1, .grp i sub :: rs, s, prev, caps, k =>
    matchSeq ci fuel sub s prev caps (fun rest prev' caps' =>
      matchSeq ci fuel rs rest prev' ((i, s.take (s.length - rest.length)) :: caps') k)
  | _ + 1, .alt [] :: _, _, _, _, _ => none
  | fuel + 1, .alt (b :: bs) :: rs, s, prev, caps, k =>
    (matchSeq ci fuel (b ++ rs) s prev caps k).orElse
      (fun _ => matchSeq ci fuel (.alt bs :: rs) s prev caps k)
  | fuel + 1, .optSeq sub :: rs, s, prev, caps, k =>
    (matchSeq ci fuel (sub ++ rs) s prev caps k).orElse
      (fun _ => matchSeq ci fuel rs s prev caps k)
  | fuel + 1, .wb :: rs, s, prev, caps, k =>
    let pw := match prev with | some c => isWordChar c | none => false
    let nw := match s with | c :: _ => isWordChar c | [] => false
    if pw != nw then matchSeq ci fuel rs s prev caps k else none

/-- Try the pattern at each position from the left; on the first success
return (text before the match, matched text, captures, rest). -/
def searchAux (ci : Bool) (re : List RE) :
    List Char → Option Char → Option (List Char × Caps × List Char)
  | s, prev =>
    match matchSeq ci (s.length + 600) re s prev [] (fun rest _ caps => some (rest, caps)) with
    | some (rest, caps) => some (s.take (s.length - rest.length), caps, rest)
    | none =>
      match s with
      | [] => none
      | x :: xs => searchAux ci re xs (some x)

/-- JavaScript `s.match(re)` for a non-global regex: the matched substring
and the captures of the leftmost match, if any. -/
def regexMatch (ci : Bool) (re : List RE) (s : String) : Option (String × Caps) :=
  (searchAux ci re s.toList none).map (fun r => (String.mk r.1, r.2.1))

/-- JavaScript `re.test(s)`. -/
def regexTest (ci : Bool) (re : List RE) (s : String) : Bool :=
  (regexMatch ci re s).isSome

/-- Group lookup (`m[i]`); `none` plays the role of `undefined`. -/
def getGroup (caps : Caps) (i : Nat) : Option String :=
  (caps.find? (fun p => p.1 == i)).map (fun p => String.mk p.2)

/-- All matches of a global regex (`s.match(/re/g)`), as JavaScript computes
them: repeated leftmost search, resuming after each match. -/
def matchAllAux (ci : Bool) (re : List RE) :
    Nat → List Char → Option Char → List (List Char)
  | 0, _, _ => []
  | fuel + 1, s, prev =>
    match searchAux ci re s prev with
    | none => []
    | some (matched, _, rest) =>
      matched :: matchAllAux ci re fuel rest ((matched.reverse.head?).orElse (fun _ => prev))

def jsMatchAll (ci : Bool) (re : List RE) (s : String) : List String :=
  (matchAllAux ci re (s.toList.length + 1) s.toList none).map String.mk

/-- JavaScript replacing every `**` by the empty string, as used on
extracted fragments. -/
def stripBold : List Char → List Char
  | '*' :: '*' :: rest => stripBold rest
  | c :: rest => c :: stripBold rest
  | [] => []

def stripBoldStr (s : String) : String := String.mk (stripBold s.toList)

/-! ## The extraction regexes of the chat handler (`server.ts` 1256-1365)

In the source every quote character inside the regex classes is the plain
ASCII double quote (the classes spell it twice, which collapses to a
one-character class). -/

def rlit (s : String) : RE := .lit s.toList

def chSet (s : String) : CC := ⟨true, s.toList.map .ch⟩

def negSet (s : String) : CC := ⟨false, s.toList.map .ch⟩

def spaceCC : CC := ⟨true, [.space]⟩

def colonSpaceCC : CC := ⟨true, [.ch ':', .space]⟩

def wordCC : CC := ⟨true, [.word]⟩

/-- One branch of the pattern-0 regex (line 1262); the source writes the same
branch twice, capturing into group 1 and group 2. -/
def moreCommonBranch (g : Nat) : List RE :=
  [.alt [[rlit "more common to say"], [rlit "would be more common"]],
   .cls colonSpaceCC .star, rlit "\"", .grp g [.cls (negSet "\"") .plus], rlit "\""]

def moreCommonRe : List RE := [.alt [moreCommonBranch 1, moreCommonBranch 2]]

/-- One branch of the pattern-0b regex (line 1270). -/
def wouldBeBranch (g : Nat) : List RE :=
  [.alt [[rlit "it would be"], [rlit "would be"]],
   .cls colonSpaceCC .star, rlit "\"", .grp g [.cls (negSet "\"") .plus], rlit "\""]

def wouldBeRe : List RE := [.alt [wouldBeBranch 1, wouldBeBranch 2]]

/-- The bold-span regex of patterns 0c and 5 (lines 1280, 1328), global. -/
def boldRe : List RE := [rlit "**", .grp 1 [.cls (negSet "*") .plus], rlit "**"]

/-- One branch of the pattern-1 regex (line 1292), case-sensitive. -/
def fullSentenceBranch (g : Nat) : List RE :=
  [rlit "\"",
   .grp g [.cls (chSet "I") .one, .cls (negSet "\"") .plus, .cls (chSet ".!?") .one],
   rlit "\""]

def fullSentenceRe : List RE := [.alt [fullSentenceBranch 1, fullSentenceBranch 2]]

/-- Pattern 2 regex (line 1301). -/
def couldSayRe : List RE :=
  [rlit "you could say", .cls spaceCC .star, rlit "\"",
   .grp 1 [.cls (negSet "\"") .plus], rlit "\""]

/-- Pattern 3 regex (line 1310). -/
def quotedVerbRe : List RE :=
  [rlit "\"",
   .grp 1 [.cls (negSet "\"") .star,
           .alt [[rlit "made"], [rlit "making"], [rlit "went"], [rlit "goes"],
                 [rlit "is"], [rlit "are"], [rlit "was"], [rlit "were"]],
           .cls (negSet "\"") .star],
   rlit "\""]

/-- Pattern 4 regex (line 1319). -/
def itWasRe : List RE :=
  [rlit "\"",
   .grp 1 [.cls (negSet "\"") .star, rlit "It ",
           .alt [[rlit "was"], [rlit "is"]],
           .cls (negSet "\"") .star],
   rlit "\""]

/-- The common core of both branches of the pattern-6 regex (line 1339). -/
def aboutToCore (g1 g2 : Nat) : List RE :=
  [rlit "I'm about to", .cls spaceCC .plus,
   .optSeq [rlit "**"], .grp g1 [.cls wordCC .plus], .optSeq [rlit "**"],
   .cls spaceCC .plus,
   .optSeq [rlit "a", .cls (chSet "n") .opt, .cls spaceCC .plus],
   .grp g2 [.cls wordCC .plus]]

def aboutToRe : List RE :=
  [.alt [[rlit "\""] ++ aboutToCore 1 2 ++ [.cls (chSet ".") .opt, rlit "\""],
         aboutToCore 3 4]]

/-- Pattern 7 regex (line 1352), case-sensitive. -/
def bulletQuoteRe : List RE :=
  [rlit "*", .cls spaceCC .star, rlit "\"",
   .grp 1 [.cls (negSet "\"") .plus], rlit "\""]

/-- The final should-be/say regex (line 1361). -/
def shouldBeRe : List RE :=
  [rlit "should ", .alt [[rlit "be"], [rlit "say"]], .cls spaceCC .star,
   .cls (chSet "\"") .opt, .grp 1 [.cls (negSet "\".,!?") .plus]]

/-! ## Fragment extraction (`server.ts` 1260-1365)

Each extractor yields the string the source would assign to `correctedText`,
or the empty string when the pattern does not fire (so that the next cascade
stage runs, exactly like the source's `if (!correctedText)` guards). -/

def extractMoreCommon (aiResponse : String) : String :=
  match regexMatch true moreCommonRe aiResponse with
  | some (_, caps) =>
    jsTrim (stripBoldStr (firstTruthyStr [getGroup caps 1, getGroup caps 2] ""))
  | none => ""

def extractWouldBe (aiResponse : String) : String :=
  match regexMatch true wouldBeRe aiResponse with
  | some (_, caps) =>
    jsTrim (stripBoldStr (firstTruthyStr [getGroup caps 1, getGroup caps 2] ""))
  | none => ""

/-- Pattern 0c (lines 1279-1287): all bold spans joined into a `Use: ...`
hint. -/
def extractBoldUse (aiResponse : String) : String :=
  let ms := jsMatchAll false boldRe aiResponse
  if ms.length > 0 then "Use: " ++ String.intercalate ", " (ms.map stripBoldStr)
  else ""

def extractFullSentence (aiResponse : String) : String :=
  match regexMatch false fullSentenceRe aiResponse with
  | some (_, caps) =>
    jsTrim (stripBoldStr (firstTruthyStr [getGroup caps 1, getGroup caps 2] ""))
  | none => ""

/-- Pattern 2; the source applies no trim here (line 1303). -/
def extractCouldSay (aiResponse : String) : String :=
  match regexMatch true couldSayRe aiResponse with
  | some (_, caps) => stripBoldStr ((getGroup caps 1).getD "")
  | none => ""

def extractQuotedVerb (aiResponse : String) : String :=
  match regexMatch true quotedVerbRe aiResponse with
  | some (_, caps) => jsTrim (stripBoldStr ((getGroup caps 1).getD ""))
  | none => ""

def extractItWas (aiResponse : String) : String :=
  match regexMatch true itWasRe aiResponse with
  | some (_, caps) => jsTrim (stripBoldStr ((getGroup caps 1).getD ""))
  | none => ""

/-- Pattern 6 (lines 1338-1348): rebuilds the suggested sentence from the
captured verb and noun. -/
def extractAboutTo (aiResponse : String) : String :=
  match regexMatch true aboutToRe aiResponse with
  | some (_, caps) =>
    let verb := firstTruthyStr [getGroup caps 1, getGroup caps 3] ""
    let noun := firstTruthyStr [getGroup caps 2, getGroup caps 4] ""
    if verb ≠ "" && noun ≠ "" then "I'm about to " ++ verb ++ " an " ++ noun
    else ""
  | none => ""

def extractBulletQuote (aiResponse : String) : String :=
  match regexMatch false bulletQuoteRe aiResponse with
  | some (_, caps) => jsTrim (stripBoldStr ((getGroup caps 1).getD ""))
  | none => ""

def extractShouldBe (aiResponse : String) : String :=
  match regexMatch true shouldBeRe aiResponse with
  | some (_, caps) => jsTrim (stripBoldStr ((getGroup caps 1).getD ""))
  | none => ""

/-- The extraction cascade in source order (`server.ts` 1260-1365).  Pattern 5
of the source (a second bold-word scan) computes a log string but assigns
nothing, so it has no stage here. -/
def extractCorrectedText (aiResponse : String) : String :=
  let c := extractMoreCommon aiResponse
  let c := if c ≠ "" then c else extractWouldBe aiResponse
  let c := if c ≠ "" then c else extractBoldUse aiResponse
  let c := if c ≠ "" then c else extractFullSentence aiResponse
  let c := if c ≠ "" then c else extractCouldSay aiResponse
  let c := if c ≠ "" then c else extractQuotedVerb aiResponse
  let c := if c ≠ "" then c else extractItWas aiResponse
  let c := if c ≠ "" then c else extractAboutTo aiResponse
  let c := if c ≠ "" then c else extractBulletQuote aiResponse
  let c := if c ≠ "" then c else extractShouldBe aiResponse
  c

/-! ## Correction-indicator phrases (`server.ts` 1136-1173) -/

def correctionPatterns : List String :=
  ["instead of", "you could say", "you can say", "should be", "should say",
   "correct form", "correct way", "better to say", "more common to say",
   "it would be", "would be:", "small correction", "minor correction",
   "little correction", "let's work on", "let me help",
   "a few things to note", "things to note", "past tense", "present tense",
   "we use", "you need to use", "we need to use", "need a verb",
   "missing verb", "missing a verb", "use the right verb",
   "\"was\" vs", "\"is\" vs", "vs. \"",
   "**was**", "**had**", "**went**", "**is**", "**are**"]

/-- First correction phrase occurring in the lowercased feedback
(`server.ts` 1175-1185). -/
def detectMatchedPattern (feedbackLower : String) : Option String :=
  correctionPatterns.find? (fun p => jsIncludes feedbackLower (jsToLower p))

/-! ## Category assignment (`server.ts` 1367-1568) -/

/-- The base/past verb pairs of `verbTensePatterns` (lines 1413-1485). -/
def verbTensePatterns : List (String × String) :=
  [("cook", "cooked"), ("make", "made"), ("go", "went"), ("do", "did"),
   ("have", "had"), ("is", "was"), ("are", "were"), ("eat", "ate"),
   ("drink", "drank"), ("see", "saw"), ("come", "came"), ("take", "took"),
   ("get", "got"), ("buy", "bought"), ("think", "thought"), ("say", "said"),
   ("tell", "told"), ("give", "gave"), ("find", "found"), ("know", "knew"),
   ("put", "put"), ("run", "ran"), ("write", "wrote"), ("read", "read"),
   ("speak", "spoke"), ("meet", "met"), ("sit", "sat"), ("stand", "stood"),
   ("hear", "heard"), ("sleep", "slept"), ("wake", "woke"), ("begin", "began"),
   ("break", "broke"), ("bring", "brought"), ("build", "built"),
   ("catch", "caught"), ("choose", "chose"), ("draw", "drew"),
   ("drive", "drove"), ("fall", "fell"), ("feel", "felt"), ("fly", "flew"),
   ("forget", "forgot"), ("grow", "grew"), ("hang", "hung"), ("hold", "held"),
   ("keep", "kept"), ("leave", "left"), ("lend", "lent"), ("let", "let"),
   ("lie", "lay"), ("lose", "lost"), ("pay", "paid"), ("ride", "rode"),
   ("ring", "rang"), ("rise", "rose"), ("sell", "sold"), ("send", "sent"),
   ("shine", "shone"), ("show", "showed"), ("sing", "sang"), ("sink", "sank"),
   ("spend", "spent"), ("steal", "stole"), ("swim", "swam"), ("swing", "swung"),
   ("teach", "taught"), ("throw", "threw"), ("understand", "understood"),
   ("wear", "wore"), ("win", "won")]

/-- The substitution pairs of `wordChoicePatterns` (lines 1509-1523). -/
def wordChoicePatterns : List (String × String) :=
  [("did", "made"), ("did", "had"), ("make", "do"), ("do", "make"),
   ("say", "tell"), ("tell", "say"), ("see", "watch"), ("watch", "see"),
   ("hear", "listen"), ("listen", "hear"), ("big", "large"),
   ("small", "little"), ("fast", "quick")]

/-- Verb-tense change detection between original and corrected text
(lines 1487-1505): either an irregular base/past pair, or a regular `-ed`
ending. -/
def isVerbTenseError (origLower corrLower : String) : Bool :=
  verbTensePatterns.any (fun vp =>
    ((jsIncludes origLower (" " ++ vp.1 ++ " ") ||
      jsIncludes origLower (" " ++ vp.1 ++ ".") ||
      jsIncludes origLower (" " ++ vp.1 ++ ",") ||
      jsStartsWith origLower (vp.1 ++ " ") ||
      jsEndsWith origLower (" " ++ vp.1)) &&
     (jsIncludes corrLower vp.2 || jsIncludes corrLower (vp.2 ++ "ed"))) ||
    (jsIncludes origLower (" " ++ vp.1 ++ " ") &&
     jsIncludes corrLower (vp.1 ++ "ed")))

/-- Word-choice change detection (lines 1525-1532). -/
def isWordChoiceError (origLower corrLower : String) : Bool :=
  wordChoicePatterns.any (fun wc =>
    (jsIncludes origLower (" " ++ wc.1 ++ " ") ||
     jsIncludes origLower (" " ++ wc.1 ++ ".")) &&
    jsIncludes corrLower wc.2)

/-- What the category-assignment chain writes: error type, sub-type, short
feedback, (possibly updated) feedback type, and the grammar category. -/
structure CategoryResult where
  errorType : String
  errorSubType : String
  shortFeedback : String
  feedbackType : String
  grammarCategory : String
deriving DecidableEq

/-- The missing-verb condition of `server.ts` 1369-1374. -/
def missingVerbCond (mp fl : String) : Bool :=
  jsIncludes mp "need to use" || jsIncludes mp "verb" ||
  jsIncludes mp "missing" || jsIncludes mp "right verb" ||
  jsIncludes fl "need a verb" || jsIncludes fl "missing verb" ||
  jsIncludes fl "use the right verb" || jsIncludes fl "we need to use"

/-- The tense-indicator condition of `server.ts` 1379-1391. -/
def tenseIndicatorCond (mp fl : String) : Bool :=
  jsIncludes mp "tense" || jsIncludes mp "**had**" ||
  jsIncludes mp "**was**" || jsIncludes mp "**went**" ||
  jsIncludes fl "past tense" || jsIncludes fl "present tense" ||
  jsIncludes fl "\"was\" vs" || jsIncludes fl "\"is\" vs" ||
  jsIncludes fl "we use \"was\"" || jsIncludes fl "we use \"had\"" ||
  jsIncludes fl "already happened" || jsIncludes fl "since the" ||
  jsIncludes fl "because it already"

/-- The naturalness condition of `server.ts` 1547-1549. -/
def fluencyCond (mp fl : String) (vt wc : Bool) : Bool :=
  jsIncludes mp "smoother" || jsIncludes mp "natural" ||
  (jsIncludes fl "more natural" && !vt && !wc) || jsIncludes fl "sounds better"

/-- The common-usage condition of `server.ts` 1557. -/
def moreCommonCond (mp fl : String) : Bool :=
  jsIncludes mp "more common" || jsIncludes fl "more common"

/-- The category-assignment chain of the extraction branch
(`server.ts` 1367-1568), in source order: missing-verb language, tense
indicators, `article`, `preposition`, then the smart detection block
(verb-pair, word-pair, naturalness, `more common`, default). -/
def assignErrorCategory (matchedPattern feedbackLower origLower corrLower
    feedbackType : String) : CategoryResult :=
  if missingVerbCond matchedPattern feedbackLower then
    ⟨"grammar", "grammar_sentence_structure", "Grammar error: Missing verb",
     feedbackType, "grammar_sentence_structure"⟩
  else if tenseIndicatorCond matchedPattern feedbackLower then
    ⟨"grammar", "grammar_tense_verb", "Grammar error: Verb tense",
     feedbackType, "grammar_tense_verb"⟩
  else if jsIncludes feedbackLower "article" then
    ⟨"grammar", "prepositions_articles", "Grammar error: Article usage",
     feedbackType, "prepositions_articles"⟩
  else if jsIncludes feedbackLower "preposition" then
    ⟨"grammar", "prepositions_articles", "Grammar error: Preposition",
     feedbackType, "prepositions_articles"⟩
  else
    let vt := isVerbTenseError origLower corrLower
    let wc := isWordChoiceError origLower corrLower
    if vt then
      ⟨"grammar", "grammar_tense_verb", "Grammar error: Verb tense",
       feedbackType, "grammar_tense_verb"⟩
    else if wc then
      ⟨"vocabulary", "vocabulary_word_choice", "Vocabulary: Word choice",
       feedbackType, "vocabulary_word_choice"⟩
    else if fluencyCond matchedPattern feedbackLower vt wc then
      ⟨"fluency", "fluency_naturalness", "Suggestion: More natural phrasing",
       "info", "fluency_naturalness"⟩
    else if moreCommonCond matchedPattern feedbackLower then
      ⟨"grammar", "grammar_tense_verb", "Grammar suggestion: Common usage",
       feedbackType, "grammar_tense_verb"⟩
    else
      ⟨"grammar", "grammar_sentence_structure", "Grammar correction suggested",
       feedbackType, "grammar_sentence_structure"⟩

/-! ## Data model of the chat handler -/

/-- A mistake object as passed around by the handler.  JavaScript objects
have optional fields, so every field is an `Option String`; `none` plays the
role of `undefined`. -/
structure Mist where
  category : Option String := none
  category_display : Option String := none
  sub_category : Option String := none
  grammar_category : Option String := none
  original_part : Option String := none
  original_text : Option String := none
  corrected_version : Option String := none
  corrected_text : Option String := none
  short_explanation : Option String := none
  explanation : Option String := none
  severity : Option String := none
deriving DecidableEq

/-- The analysis object returned by `AIEngine.analyzeAndRespond`
(`AIEngine.ts` 40-77).  A missing `mistakes` array is already collapsed to
`[]`, matching `analysis.mistakes || []` at `server.ts` 1201. -/
structure Analysis where
  sentence_status : Option String := none
  mistakes : List Mist := []
  feedback : String := ""
  short_feedback : Option String := none
  feedback_type : Option String := none
  grammar_category : Option String := none
deriving DecidableEq

/-- Name map used for the structured-branch short feedback
(`server.ts` 1229-1237). -/
def categoryNames : List (String × String) :=
  [("verb_tense", "verb tense"), ("agreement", "subject-verb agreement"),
   ("article_determiner", "article usage"), ("preposition", "preposition"),
   ("sentence_structure", "sentence structure"), ("verb_form", "verb form"),
   ("pronoun_reference", "pronoun reference")]

/-- Display-name map of the extraction branch (`server.ts` 1571-1580). -/
def categoryDisplayNames : List (String × String) :=
  [("grammar_tense_verb", "Grammar – Tense & Verb Forms"),
   ("grammar_sentence_structure", "Grammar – Sentence Structure"),
   ("vocabulary_word_choice", "Vocabulary & Word Choice"),
   ("prepositions_articles", "Prepositions & Articles"),
   ("word_order", "Word Order"),
   ("spelling_form", "Spelling / Form Errors"),
   ("fluency_naturalness", "Fluency & Naturalness"),
   ("clarity_meaning", "Clarity & Meaning")]

/-- JavaScript `map[key] || fallback` over an association list. -/
def mapLookupOr (m : List (String × String)) (key fallback : String) : String :=
  match m.find? (fun p => p.1 == key) with
  | some p => p.2
  | none => fallback

/-- The per-mistake normalisation of the structured branch
(`server.ts` 1215-1225). -/
def normalizeStructured (grammarCategory : Option String) (m : Mist) : Mist :=
  { category := some (firstTruthyStr [m.category] "grammar"),
    sub_category :=
      some (firstTruthyStr [m.grammar_category, m.sub_category, grammarCategory]
        "general"),
    grammar_category :=
      some (firstTruthyStr [m.grammar_category, grammarCategory] "general"),
    original_part := m.original_text,
    original_text := m.original_text,
    corrected_version := m.corrected_text,
    corrected_text := m.corrected_text,
    short_explanation :=
      some (firstTruthyStr [m.explanation]
        ("Corrected: \"" ++ optJsStr m.corrected_text ++ "\"")),
    severity := some (firstTruthyStr [m.severity] "medium") }

/-- The single mistake object built by the extraction branch
(`server.ts` 1582-1594). -/
def buildExtractedMistake (cat : CategoryResult)
    (originalText correctedText : String) : Mist :=
  { category := some cat.errorSubType,
    category_display :=
      some (mapLookupOr categoryDisplayNames cat.errorSubType "Grammar"),
    sub_category := some cat.errorSubType,
    grammar_category := some cat.grammarCategory,
    original_part := some originalText,
    original_text := some originalText,
    corrected_version :=
      some (if correctedText ≠ "" then correctedText
            else "See AI suggestion in the response"),
    corrected_text :=
      some (if correctedText ≠ "" then correctedText
            else "See AI suggestion in the response"),
    short_explanation :=
      some (if correctedText ≠ "" then "Use \"" ++ correctedText ++ "\" instead"
            else "Check the AI response for the correct form"),
    explanation :=
      some (if correctedText ≠ "" then
              "Use \"" ++ correctedText ++ "\" instead of \"" ++ originalText ++ "\""
            else "Check the AI response for the correct form"),
    severity := some "medium" }

/-- Well-formedness test of the structured fast path (`server.ts` 1212):
the list is non-empty and the FIRST entry has truthy `original_text` and
`corrected_text`. -/
def structuredHeadOk (ms : List Mist) : Bool :=
  match ms with
  | m :: _ => truthy m.original_text && truthy m.corrected_text
  | [] => false

/-- Everything the chat handler derives from one turn.  `tookStructured` and
`tookExtraction` record which branch ran (the source logs these at lines
1213 and 1243). -/
structure ChatResult where
  sentenceStatus : String
  mistakes : List Mist
  shortFeedback : String
  feedbackType : String
  grammarCategory : Option String
  errorSubType : String
  detectedCorrection : Bool
  matchedPattern : String
  correctedText : String
  hadCorrection : Bool
  countsAsIncorrect : Bool
  tookStructured : Bool
  tookExtraction : Bool
deriving DecidableEq

/-- Common tail of the chat handler: the short-feedback default block
(`server.ts` 1600-1609) and the score bookkeeping flags (lines 1613-1619). -/
def finishChat (sentenceStatus : String) (mistakes : List Mist)
    (shortFeedback feedbackType : String) (grammarCategory : Option String)
    (errorSubType : String) (detectedCorrection : Bool)
    (matchedPattern correctedText : String)
    (tookStructured tookExtraction : Bool) : ChatResult :=
  let sf :=
    if shortFeedback = "" then
      if sentenceStatus == "has_errors" || mistakes.length > 0 then
        ("Grammar issue detected", "warning")
      else ("Perfect! No grammar mistakes detected.", "success")
    else (shortFeedback, feedbackType)
  let hadCorrection :=
    sentenceStatus == "has_errors" || mistakes.length > 0 || detectedCorrection
  let isFluencyOnly :=
    grammarCategory == some "fluency_naturalness" ||
    errorSubType == "fluency_naturalness"
  { sentenceStatus := sentenceStatus,
    mistakes := mistakes,
    shortFeedback := sf.1,
    feedbackType := sf.2,
    grammarCategory := grammarCategory,
    errorSubType := errorSubType,
    detectedCorrection := detectedCorrection,
    matchedPattern := matchedPattern,
    correctedText := correctedText,
    hadCorrection := hadCorrection,
    countsAsIncorrect := hadCorrection && !isFluencyOnly,
    tookStructured := tookStructured,
    tookExtraction := tookExtraction }

/-- The defaulted sentence status `analysis.sentence_status || 'correct'`
(`server.ts` 1200). -/
def sentStatusOf (analysis : Analysis) : String :=
  firstTruthyStr [analysis.sentence_status] "correct"

/-- The classification part of the `/api/session/chat` handler
(`server.ts` 1118-1636): correction detection, the structured fast path,
the extraction branch, the short-feedback default, and the
counts-as-incorrect decision. -/
def processChat (text : String) (analysis : Analysis) : ChatResult :=
  let aiResponse := analysis.feedback
  let feedbackLower := jsToLower aiResponse
  let matchedPatternOpt := detectMatchedPattern feedbackLower
  let detectedCorrection := matchedPatternOpt.isSome
  let matchedPattern := matchedPatternOpt.getD ""
  let shortFeedback0 := firstTruthyStr [analysis.short_feedback] ""
  let feedbackType0 := firstTruthyStr [analysis.feedback_type] "success"
  let sentenceStatus0 := sentStatusOf analysis
  let mistakes0 := analysis.mistakes
  let grammarCategory0 := jsOrNull analysis.grammar_category
  -- Branch 1 (lines 1212-1240): trust well-formed structured mistakes.
  if structuredHeadOk mistakes0 then
    let mistakes1 := mistakes0.map (normalizeStructured grammarCategory0)
    let shortFeedback1 :=
      match grammarCategory0 with
      | some gc => "Grammar issue: " ++ mapLookupOr categoryNames gc gc
      | none => shortFeedback0
    finishChat sentenceStatus0 mistakes1 shortFeedback1 feedbackType0
      grammarCategory0 "general" detectedCorrection matchedPattern ""
      true false
  -- Branch 2 (lines 1242-1598): pattern-detected correction, extraction.
  else if detectedCorrection && sentenceStatus0 == "correct" && mistakes0.isEmpty then
    let originalText := text
    let correctedText := extractCorrectedText aiResponse
    let cat := assignErrorCategory matchedPattern feedbackLower
      (jsToLower originalText) (jsToLower correctedText) "warning"
    let mistake := buildExtractedMistake cat originalText correctedText
    finishChat "has_errors" [mistake] cat.shortFeedback cat.feedbackType
      (some cat.grammarCategory) cat.errorSubType detectedCorrection
      matchedPattern correctedText false true
  -- Neither branch: the analysis values pass through unchanged.
  else
    finishChat sentenceStatus0 mistakes0 shortFeedback0 feedbackType0
      grammarCategory0 "general" detectedCorrection matchedPattern ""
      false false

/-! ## Counters and score (`server.ts` 259-261, 1099, 1621-1623, 1677-1681,
1744-1748) -/

/-- One recorded turn: `serverMessageCount++` always (line 1099) and
`serverIncorrectCount++` exactly when the turn counts as incorrect
(line 1623). -/
def recordTurn (c : Nat × Nat) (r : ChatResult) : Nat × Nat :=
  (c.1 + 1, if r.countsAsIncorrect then c.2 + 1 else c.2)

/-- JavaScript `Math.round(num / den)` for naturals (`den > 0`):
round half away from zero, here half up. -/
def jsRound (num den : Nat) : Nat := (2 * num + den) / (2 * den)

/-- The score of lines 1677-1681 (and identically 1744-1748):
`Math.round((total - incorrect) / total * 100)`, or 100 when no turn was
recorded. -/
def serverScore (total incorrect : Nat) : Nat :=
  if total > 0 then jsRound ((total - incorrect) * 100) total else 100

/-- The events that touch the counters: a session-start reset
(lines 941-942) or a recorded turn. -/
inductive SessionEv where
  | reset
  | turn (text : String) (analysis : Analysis)

def stepCounters : Nat × Nat → SessionEv → Nat × Nat
  | _, .reset => (0, 0)
  | c, .turn t a => recordTurn c (processChat t a)

/-- Counter state after a sequence of events, starting from the module
initialisation `(0, 0)` (lines 260-261). -/
def runCounters (evs : List SessionEv) : Nat × Nat :=
  evs.foldl stepCounters (0, 0)

/-! ## AIEngine failure fallback (`AIEngine.ts` 40-77) -/

def fallbackFeedback : String := "That is interesting! Can you tell me more?"

/-- The result object of `analyzeAndRespond`: the parsed analysis on
success, and on any thrown error (network failure, timeout) the catch block
of lines 71-76, which yields status `correct`, no mistakes and a neutral
fallback feedback.  `none` models the Gemini call throwing. -/
def analyzeAndRespondResult (outcome : Option Analysis) : Analysis :=
  match outcome with
  | some a => a
  | none =>
    { sentence_status := some "correct", mistakes := [],
      feedback := fallbackFeedback }

/-! ## Server session state (`server.ts` globals + `SessionController`)

The fields mirror the module-level variables of `server.ts`
(`currentTopicInfo` line 829, the counters lines 260-261) and the private
state of `SessionController` (`currentUser`, `currentTopicId`,
`currentSession`, `isRecording`). -/

structure ServerState where
  currentTopicInfo : Bool
  ctrlUserSet : Bool
  ctrlTopicId : Nat
  ctrlHasSession : Bool
  ctrlRecording : Bool
  serverMessageCount : Nat
  serverIncorrectCount : Nat
deriving DecidableEq

def initServerState : ServerState :=
  { currentTopicInfo := false, ctrlUserSet := false, ctrlTopicId := 0,
    ctrlHasSession := false, ctrlRecording := false,
    serverMessageCount := 0, serverIncorrectCount := 0 }

/-- `SessionController.setTopic` (controller source): stores the topic id
only when the lookup succeeds. -/
def ctrlSetTopic (s : ServerState) (topicId : Nat) (found : Bool) : ServerState :=
  if found then { s with ctrlTopicId := topicId } else s

/-- `SessionController.startRecording`: requires a logged-in user and a
selected topic; creates the session and switches recording on. -/
def ctrlStartRecording (s : ServerState) : ServerState :=
  if !s.ctrlUserSet then s
  else if s.ctrlTopicId == 0 then s
  else { s with ctrlHasSession := true, ctrlRecording := true }

/-- `SessionController.sessionEnded`: a no-op without a session, otherwise
stops recording and clears the session. -/
def ctrlSessionEnded (s : ServerState) : ServerState :=
  if !s.ctrlHasSession then s
  else { s with ctrlRecording := false, ctrlHasSession := false }

/-- `/api/session/start` effects on this state (`server.ts` 916, 925, 933,
941-942): set `currentTopicInfo`, forward to the controller, reset the
counters.  Nothing ever sets `ctrlUserSet`: `server.ts` never calls
`setCurrentUser`. -/
def startSessionStep (s : ServerState) (topicId : Nat) (found : Bool) :
    ServerState :=
  let s1 := { s with currentTopicInfo := true }
  let s2 := ctrlSetTopic s1 topicId found
  let s3 := ctrlStartRecording s2
  { s3 with serverMessageCount := 0, serverIncorrectCount := 0 }

/-- `/api/session/end` effects on this state (`server.ts` 1723-1815): only
`sessionEnded` touches it; `currentTopicInfo` and both counters are left
unchanged. -/
def endSessionStep (s : ServerState) : ServerState :=
  ctrlSessionEnded s

/-- The active-session guard of `/api/session/chat` (`server.ts` 1052). -/
def chatGuardRejects (s : ServerState) : Bool :=
  !s.currentTopicInfo && !s.ctrlRecording

/-- `/api/session/chat` effects on this state.  The user id is part of the
request (the handler reads `req.tokenUser.id`) but the counters it updates
are the process-wide ones. -/
def chatStep (s : ServerState) (_userId : Nat) (text : String)
    (analysis : Analysis) : ServerState :=
  if chatGuardRejects s then s
  else
    let c := recordTurn (s.serverMessageCount, s.serverIncorrectCount)
      (processChat text analysis)
    { s with serverMessageCount := c.1, serverIncorrectCount := c.2 }

/-- The score any user observes (`_tracking.currentScore`, line 1708, and
the final score of `/api/session/end`): computed from the process-wide
counters, whatever the requesting user. -/
def scoreSeenBy (s : ServerState) (_userId : Nat) : Nat :=
  serverScore s.serverMessageCount s.serverIncorrectCount

/-! ## FeedbackEngine (`FeedbackEngine.ts` 45-85, 236-254)

`Math.random()` is modelled by a stream `rand : ℕ → ℚ` of the successive
values returned; `analyzeSentenceStructure` reports whether it consumed one.
The `timestamp` field of `Score` (wall-clock time) is omitted. -/

/-- The six `grammarPatterns` regexes (lines 238-245), all `/i`. -/
def grammarPatterns : List (List RE) :=
  [[.wb, rlit "i", .cls spaceCC .plus, rlit "is", .wb],
   [.wb, rlit "he", .cls spaceCC .plus, rlit "are", .wb],
   [.wb, rlit "she", .cls spaceCC .plus, rlit "are", .wb],
   [.wb, rlit "they", .cls spaceCC .plus, rlit "is", .wb],
   [.wb, rlit "does", .cls spaceCC .plus, .cls wordCC .plus, rlit "s", .wb],
   [.wb, rlit "more", .cls spaceCC .plus, .cls wordCC .plus, rlit "er", .wb]]

/-- JavaScript split on a one-character-class regex with `+` (used with
`[.!?]+` and `\s+`): maximal separator runs split the string, with empty
pieces at a leading or trailing separator. -/
def splitRunGo (sep : Char → Bool) : List Char → Option (List Char) → List (List Char)
  | [], some acc => [acc.reverse]
  | [], none => [[]]
  | c :: cs, some acc =>
    if sep c then acc.reverse :: splitRunGo sep cs none
    else splitRunGo sep cs (some (c :: acc))
  | c :: cs, none =>
    if sep c then splitRunGo sep cs none
    else splitRunGo sep cs (some [c])

def jsSplitRegex (sep : Char → Bool) (s : String) : List String :=
  (splitRunGo sep s.toList (some [])).map String.mk

def isSentenceSep (c : Char) : Bool := c == '.' || c == '!' || c == '?'

/-- `analyzeSentenceStructure` (lines 248-254); the Bool records whether
`Math.random()` was called. -/
def analyzeSentenceStructure (sentence : String) (r : ℚ) : ℚ × Bool :=
  let words := jsSplitRegex isJsSpace (jsTrim sentence)
  if words.length < 3 then (60, false)
  else if words.length > 25 then (70, false)
  else (85 + r * 15, true)

/-- The sentence loop of `evaluateGrammar` (lines 60-69): total deduction
and issue strings, threading the index into the random stream. -/
def evalSentences (rand : ℕ → ℚ) : List String → ℕ → ℤ × List String
  | [], _ => (0, [])
  | sent :: rest, k =>
    if (jsTrim sent).length > 0 then
      let sr := analyzeSentenceStructure sent (rand k)
      let k' := if sr.2 then k + 1 else k
      let tail := evalSentences rand rest k'
      if sr.1 < 80 then (tail.1 + 5, "Sentence structure needs improvement" :: tail.2)
      else tail
    else evalSentences rand rest k

/-- The value/details pair produced by `evaluateGrammar` (timestamp
omitted). -/
structure ScoreE where
  value : ℤ
  category : String
  details : String
deriving DecidableEq

/-- `FeedbackEngine.evaluateGrammar` (lines 45-85). -/
def evaluateGrammar (text : String) (rand : ℕ → ℚ) : ScoreE :=
  let patHits := grammarPatterns.filter (fun p => regexTest true p text)
  let patIssues := patHits.map (fun _ => "Grammar issue detected")
  let sentsRes := evalSentences rand (jsSplitRegex isSentenceSep text) 0
  let totalScore : ℤ := 100 - 10 * patHits.length - sentsRes.1
  let issues := patIssues ++ sentsRes.2
  { value := if totalScore < 0 then 0 else totalScore,
    category := "grammar",
    details :=
      if issues.length > 0 then
        "Issues found: " ++ String.intercalate "; " (issues.take 3)
      else "Grammar is correct!" }

/-! ## Spec-side definitions

These state parts of the specification in its own words, for comparison
with the definitions above (refinement-style claims C2, C4, C5). -/

/-- The score formula as the spec words it: 100 when no turn was recorded,
else `round(100 * (total - incorrect) / total)` over the rationals. -/
def specScore (t i : Nat) : ℤ :=
  if t = 0 then 100 else round ((100 : ℚ) * ((t : ℚ) - (i : ℚ)) / (t : ℚ))

/-- First extractor in a list yielding a non-empty fragment (the spec's
description of the extraction cascade). -/
def cascadeFirstNonEmpty (ps : List (String → String)) (aiResponse : String) :
    String :=
  match ps with
  | [] => ""
  | p :: rest =>
    let c := p aiResponse
    if c ≠ "" then c else cascadeFirstNonEmpty rest aiResponse

/-- The extraction cascade in the order claim C4 lists it, which omits the
source's `I'm about to` pattern. -/
def claimedExtractors : List (String → String) :=
  [extractMoreCommon, extractWouldBe, extractBoldUse, extractFullSentence,
   extractCouldSay, extractQuotedVerb, extractItWas,
   extractBulletQuote, extractShouldBe]

/-- The extraction cascade in the source's order (`server.ts` 1260-1365),
with the `I'm about to` pattern between the `It was/is` pattern and the
bulleted-quote pattern. -/
def sourceExtractors : List (String → String) :=
  [extractMoreCommon, extractWouldBe, extractBoldUse, extractFullSentence,
   extractCouldSay, extractQuotedVerb, extractItWas, extractAboutTo,
   extractBulletQuote, extractShouldBe]

/-- First category rule whose condition holds, else the default (the spec's
description of category assignment as an ordered rule list). -/
def firstRule : List (Bool × CategoryResult) → CategoryResult → CategoryResult
  | [], d => d
  | (b, r) :: rest, d => if b then r else firstRule rest d

/-- The category cascade in the order claim C5 lists it: missing-verb, then
tense indicators OR a verb pair, then a word pair, then `article`, then
`preposition`, then naturalness, then the default. -/
def claimedCategoryAssign (mp fl ol cl ft : String) : CategoryResult :=
  firstRule
    [(missingVerbCond mp fl,
      ⟨"grammar", "grammar_sentence_structure", "Grammar error: Missing verb",
       ft, "grammar_sentence_structure"⟩),
     (tenseIndicatorCond mp fl || isVerbTenseError ol cl,
      ⟨"grammar", "grammar_tense_verb", "Grammar error: Verb tense",
       ft, "grammar_tense_verb"⟩),
     (isWordChoiceError ol cl,
      ⟨"vocabulary", "vocabulary_word_choice", "Vocabulary: Word choice",
       ft, "vocabulary_word_choice"⟩),
     (jsIncludes fl "article",
      ⟨"grammar", "prepositions_articles", "Grammar error: Article usage",
       ft, "prepositions_articles"⟩),
     (jsIncludes fl "preposition",
      ⟨"grammar", "prepositions_articles", "Grammar error: Preposition",
       ft, "prepositions_articles"⟩),
     (fluencyCond mp fl (isVerbTenseError ol cl) (isWordChoiceError ol cl),
      ⟨"fluency", "fluency_naturalness", "Suggestion: More natural phrasing",
       "info", "fluency_naturalness"⟩)]
    ⟨"grammar", "grammar_sentence_structure", "Grammar correction suggested",
     ft, "grammar_sentence_structure"⟩

/-- The category cascade in the source's actual order (`server.ts`
1367-1568): missing-verb, tense indicators, `article`, `preposition`,
verb pair, word pair, naturalness, `more common`, default. -/
def sourceCategoryAssign (mp fl ol cl ft : String) : CategoryResult :=
  firstRule
    [(missingVerbCond mp fl,
      ⟨"grammar", "grammar_sentence_structure", "Grammar error: Missing verb",
       ft, "grammar_sentence_structure"⟩),
     (tenseIndicatorCond mp fl,
      ⟨"grammar", "grammar_tense_verb", "Grammar error: Verb tense",
       ft, "grammar_tense_verb"⟩),
     (jsIncludes fl "article",
      ⟨"grammar", "prepositions_articles", "Grammar error: Article usage",
       ft, "prepositions_articles"⟩),
     (jsIncludes fl "preposition",
      ⟨"grammar", "prepositions_articles", "Grammar error: Preposition",
       ft, "prepositions_articles"⟩),
     (isVerbTenseError ol cl,
      ⟨"grammar", "grammar_tense_verb", "Grammar error: Verb tense",
       ft, "grammar_tense_verb"⟩),
     (isWordChoiceError ol cl,
      ⟨"vocabulary", "vocabulary_word_choice", "Vocabulary: Word choice",
       ft, "vocabulary_word_choice"⟩),
     (fluencyCond mp fl (isVerbTenseError ol cl) (isWordChoiceError ol cl),
      ⟨"fluency", "fluency_naturalness", "Suggestion: More natural phrasing",
       "info", "fluency_naturalness"⟩),
     (moreCommonCond mp fl,
      ⟨"grammar", "grammar_tense_verb", "Grammar suggestion: Common usage",
       ft, "grammar_tense_verb"⟩)]
    ⟨"grammar", "grammar_sentence_structure", "Grammar correction suggested",
     ft, "grammar_sentence_structure"⟩

/-- A turn's verdict reads `HasErrors` when the handler either reports
status `has_errors` or delivers a non-empty mistake list (spec section 4.1
treats either as the `HasErrors` verdict). -/
def turnHasErrors (r : ChatResult) : Bool :=
  r.sentenceStatus == "has_errors" || !r.mistakes.isEmpty

/-! ## Concrete inputs used by witnesses and counterexamples -/

/-- An AI reply narrating a correction in prose with empty structured
output. -/
def turnWithError : Analysis :=
  { sentence_status := some "correct",
    feedback := "You could say \"I cooked dinner yesterday\"" }

/-- Feedback whose only extraction pattern hit is the `I'm about to`
pattern, which claim C4 omits. -/
def aboutToFeedback : String := "You could say it better. I'm about to eat apple"

def aboutToAnalysis : Analysis :=
  { sentence_status := some "correct", feedback := aboutToFeedback }

/-- Feedback that only triggers the `more common` category rule. -/
def moreCommonFeedback : String := "It would be more common to say hi."

def moreCommonAnalysis : Analysis :=
  { sentence_status := some "correct", feedback := moreCommonFeedback }

/-- A structured mistake carrying both fragments. -/
def wellFormedMistake : Mist :=
  { original_text := some "I goed", corrected_text := some "I went" }

/-- A structured mistake missing its corrected fragment. -/
def malformedMistake : Mist := { original_text := some "me happy" }

/-- Structured output whose first entry is fine but whose second is
malformed. -/
def mixedStructured : Analysis :=
  { sentence_status := some "has_errors",
    mistakes := [wellFormedMistake, malformedMistake], feedback := "ok" }

/-- Structured output whose first (and only) entry is malformed, with a
correction phrase in the prose. -/
def malformedFirst : Analysis :=
  { sentence_status := some "correct", mistakes := [malformedMistake],
    feedback := "you could say \"I am happy\"" }

/-- Structured output claiming `correct` while a correction phrase occurs
in the prose. -/
def contradictoryCorrect : Analysis :=
  { sentence_status := some "correct", mistakes := [],
    feedback := "Small correction: it should be \"I went home\"" }

/-- A structured `has_errors` answer used to drive an incorrect turn. -/
def badTurn : Analysis :=
  { sentence_status := some "has_errors", mistakes := [wellFormedMistake],
    feedback := "ok" }

/-- A clean reply with no correction language. -/
def okTurn : Analysis :=
  { sentence_status := some "correct", feedback := "Nice!" }

/-- Well-formed structured output together with prose that also matches a
correction phrase. -/
def structuredWithPattern : Analysis :=
  { sentence_status := some "correct", mistakes := [wellFormedMistake],
    feedback := "you should say \"I went\"",
    grammar_category := some "verb_tense" }

/-! ## Helper lemmas -/

/-- Stepping the counters preserves `incorrect ≤ total`. -/
lemma counters_le_aux (evs : List SessionEv) :
    ∀ c : Nat × Nat, c.2 ≤ c.1 →
      (evs.foldl stepCounters c).2 ≤ (evs.foldl stepCounters c).1 := by
  induction evs with
  | nil => intro c h; exact h
  | cons e rest ih =>
    intro c h
    simp only [List.foldl_cons]
    apply ih
    cases e with
    | reset => simp [stepCounters]
    | turn t a =>
      simp only [stepCounters, recordTurn]
      split <;> omega

/-- The server's natural-number score equals the spec's rational rounding
formula once `incorrect ≤ total`. -/
lemma serverScore_eq_spec (t i : Nat) (h : i ≤ t) :
    (serverScore t i : ℤ) = specScore t i := by
  rcases Nat.eq_zero_or_pos t with ht | ht
  · subst ht; simp [serverScore, specScore]
  · have ht0 : t ≠ 0 := Nat.pos_iff_ne_zero.mp ht
    unfold serverScore specScore jsRound
    rw [if_pos ht, if_neg ht0, round_eq]
    have hc : ((t - i : ℕ) : ℚ) = (t : ℚ) - (i : ℚ) := by
      push_cast [h]; ring
    have key : (100 : ℚ) * ((t : ℚ) - (i : ℚ)) / (t : ℚ) + 1 / 2 =
        ((2 * ((t - i) * 100) + t : ℕ) : ℚ) / ((2 * t : ℕ) : ℚ) := by
      rw [← hc]
      push_cast
      have htQ : (0 : ℚ) < (t : ℚ) := by exact_mod_cast ht
      field_simp
      ring
    rw [key]
    rw [← Int.natCast_floor_eq_floor (by positivity)]
    rw [Nat.floor_div_eq_div]

/-- The server's score never exceeds 100 once `incorrect ≤ total`. -/
lemma serverScore_le_100 (t i : Nat) (h : i ≤ t) : serverScore t i ≤ 100 := by
  unfold serverScore jsRound
  split
  · have h2 : (2 * ((t - i) * 100) + t) / (2 * t) < 101 := by
      rw [Nat.div_lt_iff_lt_mul (by omega)]
      omega
    omega
  · omega

/-- In the category-assignment chain, the sub-type reads
`fluency_naturalness` exactly when the grammar category does. -/
lemma assign_fluency_pair (mp fl ol cl ft : String) :
    ((assignErrorCategory mp fl ol cl ft).errorSubType = "fluency_naturalness" ↔
     (assignErrorCategory mp fl ol cl ft).grammarCategory = "fluency_naturalness") := by
  unfold assignErrorCategory
  split_ifs <;> try simp
  all_goals (split_ifs <;> simp)

/-- The turn counts as incorrect exactly when its verdict is `HasErrors`
and its dominant category is not `fluency_naturalness` (for well-formed
status values). -/
lemma countsAsIncorrect_iff (text : String) (a : Analysis)
    (hst : sentStatusOf a = "correct" ∨ sentStatusOf a = "has_errors") :
    ((processChat text a).countsAsIncorrect = true ↔
      turnHasErrors (processChat text a) = true ∧
      (processChat text a).grammarCategory ≠ some "fluency_naturalness") := by
  unfold processChat
  by_cases hS : structuredHeadOk a.mistakes
  · have hne : a.mistakes ≠ [] := by
      cases h : a.mistakes with
      | nil => rw [h] at hS; simp [structuredHeadOk] at hS
      | cons x xs => simp
    have hlen : 0 < a.mistakes.length := List.length_pos.mpr hne
    simp only [hS, if_pos, if_true]
    unfold finishChat turnHasErrors
    simp only []
    cases hgc : jsOrNull a.grammar_category with
    | none => simp [hne, hlen]
    | some gc =>
      by_cases hfl : gc = "fluency_naturalness" <;> simp [hne, hlen, hfl]
  · simp only [hS, if_neg, if_false, Bool.false_eq_true]
    by_cases hB : (detectMatchedPattern (jsToLower a.feedback)).isSome &&
        (sentStatusOf a == "correct") && a.mistakes.isEmpty
    · simp only [hB, if_true]
      unfold finishChat turnHasErrors
      set cat := assignErrorCategory
        ((detectMatchedPattern (jsToLower a.feedback)).getD "")
        (jsToLower a.feedback) (jsToLower text)
        (jsToLower (extractCorrectedText a.feedback)) "warning" with hcat
      have hp := assign_fluency_pair
        ((detectMatchedPattern (jsToLower a.feedback)).getD "")
        (jsToLower a.feedback) (jsToLower text)
        (jsToLower (extractCorrectedText a.feedback)) "warning"
      rw [← hcat] at hp
      simp only []
      by_cases hfl : cat.grammarCategory = "fluency_naturalness"
      · simp [hfl, hp.mpr hfl]
      · have hes : ¬ (cat.errorSubType = "fluency_naturalness") :=
          fun h => hfl (hp.mp h)
        simp [hfl, hes]
    · simp only [hB, if_false]
      unfold finishChat turnHasErrors
      simp only [Bool.and_eq_true, Bool.not_eq_true] at hB
      by_cases hdet : (detectMatchedPattern (jsToLower a.feedback)).isSome
      · cases hst with
        | inl hc =>
          have hm : a.mistakes.isEmpty = false := by
            by_contra hmm
            simp only [Bool.not_eq_false] at hmm
            exact hB (by simp [hdet, hc, hmm])
          cases hgc : jsOrNull a.grammar_category with
          | none => simp [hdet, hm, List.isEmpty_eq_false.mp hm, hc]
          | some gc =>
            by_cases hfl : gc = "fluency_naturalness" <;>
              simp [hdet, hm, List.isEmpty_eq_false.mp hm, hc, hfl]
        | inr he =>
          cases hgc : jsOrNull a.grammar_category with
          | none => simp [hdet, he]
          | some gc =>
            by_cases hfl : gc = "fluency_naturalness" <;> simp [hdet, he, hfl]
      · simp only [Bool.not_eq_true] at hdet
        cases hgc : jsOrNull a.grammar_category with
        | none =>
          cases hm : a.mistakes with
          | nil => cases hst with
            | inl hc => simp [hdet, hc, hm]
            | inr he => simp [hdet, he, hm]
          | cons x xs => simp [hdet, hm]
        | some gc =>
          by_cases hfl : gc = "fluency_naturalness"
          · cases hm : a.mistakes with
            | nil => cases hst with
              | inl hc => simp [hdet, hc, hm, hfl]
              | inr he => simp [hdet, he, hm, hfl]
            | cons x xs => simp [hdet, hm, hfl]
          · cases hm : a.mistakes with
            | nil => cases hst with
              | inl hc => simp [hdet, hc, hm, hfl]
              | inr he => simp [hdet, he, hm, hfl]
            | cons x xs => simp [hdet, hm, hfl]

/-- A left fold of the `correctedText || nextPattern` chain equals the
first-non-empty cascade. -/
lemma letChain_eq (x : String) (ps : List (String → String)) (a : String) :
    ps.foldl (fun acc p => if acc ≠ "" then acc else p a) x =
    (if x ≠ "" then x else cascadeFirstNonEmpty ps a) := by
  induction ps generalizing x with
  | nil =>
    simp only [List.foldl_nil, cascadeFirstNonEmpty]
    by_cases hx : x = "" <;> simp [hx]
  | cons p rest ih =>
    simp only [List.foldl_cons, cascadeFirstNonEmpty]
    by_cases hx : x = ""
    · simp only [hx, ne_eq, not_true_eq_false, if_false, ite_false]
      rw [ih]
    · rw [if_pos hx, ih]
      simp [hx]

/-! ## Claim theorems -/

/-- C1: for every recorded turn the total counter increments by exactly
one, and the incorrect counter increments by exactly one if and only if the
turn's verdict is `HasErrors` and its dominant category is not
`FluencyNaturalness`; a turn whose sole category is fluency never
increments the incorrect counter.  The AI status field is assumed to carry
one of its two documented values (`correct`/`has_errors`). -/
theorem turn_counter_update (text : String) (a : Analysis) (t i : Nat)
    (hst : sentStatusOf a = "correct" ∨ sentStatusOf a = "has_errors") :
    (recordTurn (t, i) (processChat text a)).1 = t + 1 ∧
    ((recordTurn (t, i) (processChat text a)).2 = i + 1 ↔
      (turnHasErrors (processChat text a) = true ∧
       (processChat text a).grammarCategory ≠ some "fluency_naturalness")) ∧
    ((processChat text a).grammarCategory = some "fluency_naturalness" →
      (recordTurn (t, i) (processChat text a)).2 = i) := by
  have key := countsAsIncorrect_iff text a hst
  refine ⟨rfl, ?_, ?_⟩
  · simp only [recordTurn]
    by_cases hc : (processChat text a).countsAsIncorrect = true
    · simp only [hc, if_true]
      exact iff_of_true trivial (key.mp hc)
    · rw [Bool.not_eq_true] at hc
      simp only [hc, Bool.false_eq_true, if_false]
      exact iff_of_false (by omega) (fun hr => by simp [key.mpr hr] at hc)
  · intro hfl
    have hnc : (processChat text a).countsAsIncorrect = false := by
      rcases Bool.eq_false_or_eq_true ((processChat text a).countsAsIncorrect)
        with h | h
      · exact absurd hfl (key.mp h).2
      · exact h
    simp only [recordTurn, hnc, Bool.false_eq_true, if_false]

/-- Witness for C1: a concrete prose-corrected turn at counters (3, 1). -/
theorem turn_counter_update_witness :
    (recordTurn (3, 1) (processChat "I cook dinner yesterday" turnWithError)).2 = 2 :=
  (turn_counter_update "I cook dinner yesterday" turnWithError 3 1
    (Or.inl (by decide))).2.1.mpr (by decide)

/-- C2: over every reachable counter state (resets followed by recorded
turns) the invariant `incorrect ≤ total` holds, the derived score equals
100 for `total = 0` and the rational rounding formula otherwise, and it
always lies in `[0, 100]` (scores are naturals, so 0 is a lower bound by
construction). -/
theorem reachable_counters_score (evs : List SessionEv) :
    (runCounters evs).2 ≤ (runCounters evs).1 ∧
    (serverScore (runCounters evs).1 (runCounters evs).2 : ℤ) =
      specScore (runCounters evs).1 (runCounters evs).2 ∧
    serverScore (runCounters evs).1 (runCounters evs).2 ≤ 100 ∧
    ((runCounters evs).1 = 0 →
      serverScore (runCounters evs).1 (runCounters evs).2 = 100) := by
  have hle := counters_le_aux evs (0, 0) (le_refl 0)
  exact ⟨hle, serverScore_eq_spec _ _ hle, serverScore_le_100 _ _ hle,
    fun h0 => by simp [serverScore, h0]⟩

/-- C3: when the AI supplies well-formed non-empty structured mistakes,
the normalised structured list becomes the turn's mistake list and the
verdict is `HasErrors`, even if a correction phrase also matches the prose;
and when the structured status is `correct` with an empty mistake list but
a correction phrase occurs in the prose, the final status is overridden to
`has_errors` by the extraction branch. -/
theorem structured_vs_pattern_priority :
    (∀ (text : String) (a : Analysis),
      structuredHeadOk a.mistakes = true →
      (detectMatchedPattern (jsToLower a.feedback)).isSome = true →
      (processChat text a).tookStructured = true ∧
      (processChat text a).mistakes =
        a.mistakes.map (normalizeStructured (jsOrNull a.grammar_category)) ∧
      turnHasErrors (processChat text a) = true) ∧
    (∀ (text : String) (a : Analysis),
      a.sentence_status = some "correct" → a.mistakes = [] →
      (detectMatchedPattern (jsToLower a.feedback)).isSome = true →
      (processChat text a).sentenceStatus = "has_errors" ∧
      (processChat text a).tookExtraction = true) := by
  constructor
  · intro text a hS _hdet
    have hne : a.mistakes ≠ [] := by
      cases h : a.mistakes with
      | nil => rw [h] at hS; simp [structuredHeadOk] at hS
      | cons x xs => simp
    unfold processChat
    simp only [hS, if_true]
    unfold finishChat turnHasErrors
    refine ⟨rfl, rfl, ?_⟩
    simp [hne]
  · intro text a hst hm hdet
    have hS : structuredHeadOk a.mistakes = false := by
      simp [hm, structuredHeadOk]
    have hss : sentStatusOf a = "correct" := by
      simp [sentStatusOf, hst, firstTruthyStr]
    unfold processChat
    simp only [hS, Bool.false_eq_true, if_false]
    simp only [hdet, hss, hm, List.isEmpty_nil, beq_self_eq_true,
      Bool.and_self, Bool.and_true, if_true]
    unfold finishChat
    exact ⟨rfl, rfl⟩

/-- Witness for C3: a structured turn with a matching phrase keeps the
normalised structured list, and an AI `correct` flag with correction prose
yields `has_errors`. -/
theorem structured_vs_pattern_priority_witness :
    (processChat "u" structuredWithPattern).mistakes =
      structuredWithPattern.mistakes.map
        (normalizeStructured (jsOrNull structuredWithPattern.grammar_category)) ∧
    (processChat "u" contradictoryCorrect).sentenceStatus = "has_errors" :=
  ⟨(structured_vs_pattern_priority.1 "u" structuredWithPattern (by decide)
      (by decide)).2.1,
   (structured_vs_pattern_priority.2 "u" contradictoryCorrect (by decide)
      (by decide) (by decide)).1⟩

/-- C4 counterexample: on feedback whose only productive extractor is the
`I'm about to` pattern, detection fires, every pattern in the claim's list
yields nothing (so the claim demands the placeholder), yet the code's
corrected fragment is the `I'm about to` reconstruction. -/
theorem extraction_cascade_counterexample :
    (detectMatchedPattern (jsToLower aboutToFeedback)).isSome = true ∧
    cascadeFirstNonEmpty claimedExtractors aboutToFeedback = "" ∧
    extractCorrectedText aboutToFeedback = "I'm about to eat an apple" ∧
    (processChat "I eat apple now" aboutToAnalysis).mistakes.map
      (fun m => m.corrected_text) = [some "I'm about to eat an apple"] := by
  decide

/-- C4 amended: the corrected fragment is the first non-empty output of
the source's extractor list - which also contains the `I'm about to`
extractor, between the `It was/is` and bulleted-quote extractors - and a
fully-empty cascade yields the fixed placeholder in the built mistake. -/
theorem extraction_cascade_source_order (aiResponse : String)
    (cat : CategoryResult) (orig : String) :
    extractCorrectedText aiResponse =
      cascadeFirstNonEmpty sourceExtractors aiResponse ∧
    (cascadeFirstNonEmpty sourceExtractors aiResponse = "" →
      (buildExtractedMistake cat orig (extractCorrectedText aiResponse)).corrected_text
        = some "See AI suggestion in the response") := by
  have hf : sourceExtractors.foldl
      (fun acc p => if acc ≠ "" then acc else p aiResponse) "" =
      extractCorrectedText aiResponse := by
    simp only [sourceExtractors, List.foldl_cons, List.foldl_nil,
      extractCorrectedText, ne_eq, not_true_eq_false, if_false, ite_false]
  have he : extractCorrectedText aiResponse =
      cascadeFirstNonEmpty sourceExtractors aiResponse := by
    rw [← hf, letChain_eq]
    simp
  refine ⟨he, fun h0 => ?_⟩
  unfold buildExtractedMistake
  rw [he, h0]
  simp

/-- Witness for C4 (amended part): on feedback where the whole cascade
fails, the mistake carries the placeholder. -/
theorem extraction_cascade_source_order_witness :
    (buildExtractedMistake
      (assignErrorCategory "more common to say" (jsToLower moreCommonFeedback)
        "hello friend" "" "warning")
      "Hello friend" (extractCorrectedText moreCommonFeedback)).corrected_text =
      some "See AI suggestion in the response" :=
  (extraction_cascade_source_order moreCommonFeedback
    (assignErrorCategory "more common to say" (jsToLower moreCommonFeedback)
      "hello friend" "" "warning") "Hello friend").2 (by decide)

/-- C6: when the AI call throws, the fallback analysis produces a turn with
status `correct`, no detection, no incorrect-count increment (only the
total increments), and the fallback feedback matches none of the
correction phrases. -/
theorem ai_failure_fallback_turn (text : String) (t i : Nat) :
    (processChat text (analyzeAndRespondResult none)).sentenceStatus = "correct" ∧
    (processChat text (analyzeAndRespondResult none)).countsAsIncorrect = false ∧
    (processChat text (analyzeAndRespondResult none)).detectedCorrection = false ∧
    recordTurn (t, i) (processChat text (analyzeAndRespondResult none)) = (t + 1, i) ∧
    correctionPatterns.all
      (fun p => !jsIncludes (jsToLower fallbackFeedback) (jsToLower p)) = true := by
  have hdet : detectMatchedPattern (jsToLower fallbackFeedback) = none := by decide
  refine ⟨?_, ?_, ?_, ?_, by decide⟩ <;>
    simp [processChat, analyzeAndRespondResult, finishChat, hdet,
      structuredHeadOk, sentStatusOf, firstTruthyStr, recordTurn]

/-- C5 counterexample: feedback carrying only `more common` language.  The
code categorises the turn `grammar_tense_verb` through the `more common`
rule, while the cascade in the claim's order (which lacks that rule) falls
to its default `grammar_sentence_structure` on the very same inputs the
handler passes (matched pattern `more common to say`, lowercased feedback,
lowercased user text, empty corrected fragment). -/
theorem category_order_counterexample :
    (processChat "Hello friend" moreCommonAnalysis).grammarCategory =
      some "grammar_tense_verb" ∧
    (claimedCategoryAssign "more common to say" (jsToLower moreCommonFeedback)
        "hello friend" "" "warning").grammarCategory =
      "grammar_sentence_structure" ∧
    (processChat "Hello friend" moreCommonAnalysis).matchedPattern =
      "more common to say" ∧
    (processChat "Hello friend" moreCommonAnalysis).correctedText = "" := by
  decide

/-- C5 amended: the category chain equals the first-match rule list in the
source's order (missing-verb, tense indicators, `article`, `preposition`,
verb pair, word pair, naturalness, `more common`, default), and every
extraction-branch turn receives exactly that category. -/
theorem category_assignment_source_order (text : String) (a : Analysis)
    (mp fl ol cl ft : String) :
    assignErrorCategory mp fl ol cl ft = sourceCategoryAssign mp fl ol cl ft ∧
    ((processChat text a).tookExtraction = true →
      (processChat text a).grammarCategory =
        some (sourceCategoryAssign
          ((detectMatchedPattern (jsToLower a.feedback)).getD "")
          (jsToLower a.feedback) (jsToLower text)
          (jsToLower (extractCorrectedText a.feedback)) "warning").grammarCategory) := by
  refine ⟨rfl, ?_⟩
  intro hext
  unfold processChat at hext ⊢
  by_cases hS : structuredHeadOk a.mistakes
  · simp only [hS, if_true] at hext
    unfold finishChat at hext
    simp at hext
  · have hS' : structuredHeadOk a.mistakes = false := by simpa using hS
    simp only [hS', Bool.false_eq_true, if_false] at hext ⊢
    by_cases hB : (detectMatchedPattern (jsToLower a.feedback)).isSome &&
        (sentStatusOf a == "correct") && a.mistakes.isEmpty
    · simp only [hB, if_true]
      unfold finishChat
      rfl
    · have hB' : ((detectMatchedPattern (jsToLower a.feedback)).isSome &&
          (sentStatusOf a == "correct") && a.mistakes.isEmpty) = false := by
        simpa using hB
      simp only [hB', Bool.false_eq_true, if_false] at hext
      unfold finishChat at hext
      simp at hext

/-- Witness for C5 (amended part): the `more common` turn gets the
category of the source-ordered rule list. -/
theorem category_assignment_source_order_witness :
    (processChat "Hello friend" moreCommonAnalysis).grammarCategory =
      some (sourceCategoryAssign
        ((detectMatchedPattern (jsToLower moreCommonAnalysis.feedback)).getD "")
        (jsToLower moreCommonAnalysis.feedback) (jsToLower "Hello friend")
        (jsToLower (extractCorrectedText moreCommonAnalysis.feedback))
        "warning").grammarCategory :=
  (category_assignment_source_order "Hello friend" moreCommonAnalysis
    "" "" "" "" "").2 (by decide)

/-- C7: after `/api/session/end` the chat guard still accepts requests,
because `currentTopicInfo` is never cleared; the supposedly-rejected chat
request then increments the total counter.  This exhibits the trace of the
claim's failing input: start a session, end it, send a chat turn. -/
theorem chat_after_end_still_accepted :
    chatGuardRejects (endSessionStep (startSessionStep initServerState 1 true)) =
      false ∧
    (endSessionStep (startSessionStep initServerState 1 true)).ctrlRecording =
      false ∧
    (endSessionStep (startSessionStep initServerState 1 true)).ctrlHasSession =
      false ∧
    (chatStep (endSessionStep (startSessionStep initServerState 1 true)) 7 "hi"
        okTurn).serverMessageCount =
      (endSessionStep (startSessionStep initServerState 1 true)).serverMessageCount
        + 1 := by
  decide

/-- C8 counterexample: a structured list whose first entry is well-formed
but whose second lacks its corrected fragment still takes the structured
fast path - the source checks only `mistakes[0]`. -/
theorem structured_head_only_counterexample :
    (processChat "u" mixedStructured).tookStructured = true ∧
    mixedStructured.mistakes.all
      (fun m => truthy m.original_text && truthy m.corrected_text) = false := by
  decide

/-- C8 amended: the structured fast path is taken exactly when the FIRST
entry carries both fragments; with a non-empty list whose first entry is
malformed, classification does not fail, but the extraction branch is also
skipped (it requires an empty mistake list) and the raw mistakes pass
through unchanged. -/
theorem structured_path_head_check (text : String) (a : Analysis) :
    (processChat text a).tookStructured = structuredHeadOk a.mistakes ∧
    (structuredHeadOk a.mistakes = false → a.mistakes ≠ [] →
      (processChat text a).tookExtraction = false ∧
      (processChat text a).mistakes = a.mistakes) := by
  unfold processChat
  by_cases hS : structuredHeadOk a.mistakes
  · simp only [hS, if_true]
    unfold finishChat
    exact ⟨rfl, fun hf _ => by simp at hf⟩
  · have hS' : structuredHeadOk a.mistakes = false := by simpa using hS
    simp only [hS', Bool.false_eq_true, if_false]
    constructor
    · by_cases hB : (detectMatchedPattern (jsToLower a.feedback)).isSome &&
          (sentStatusOf a == "correct") && a.mistakes.isEmpty
      · simp only [hB, if_true]
        unfold finishChat
        rfl
      · have hB' : ((detectMatchedPattern (jsToLower a.feedback)).isSome &&
            (sentStatusOf a == "correct") && a.mistakes.isEmpty) = false := by
          simpa using hB
        simp only [hB', Bool.false_eq_true, if_false]
        unfold finishChat
        rfl
    · intro _ hne
      have hie : a.mistakes.isEmpty = false := by
        cases h : a.mistakes with
        | nil => exact absurd h hne
        | cons x xs => simp
      simp only [hie, Bool.and_false, Bool.false_eq_true, if_false]
      unfold finishChat
      exact ⟨rfl, rfl⟩

/-- Witness for C8 (amended part): a malformed first entry skips both the
structured path and extraction, passing the raw list through. -/
theorem structured_path_head_check_witness :
    (processChat "u" malformedFirst).tookExtraction = false ∧
    (processChat "u" malformedFirst).mistakes = malformedFirst.mistakes :=
  (structured_path_head_check "u" malformedFirst).2 (by decide) (by decide)

/-- C9 counterexample: after user 1's correct turn their observed score is
100; one incorrect turn submitted by user 2 drops the score user 1
observes to 50, because both turns hit the same process-wide counters. -/
theorem cross_user_score_interference :
    scoreSeenBy
      (chatStep (startSessionStep initServerState 1 true) 1 "hello" okTurn) 1 =
      100 ∧
    scoreSeenBy
      (chatStep
        (chatStep (startSessionStep initServerState 1 true) 1 "hello" okTurn)
        2 "me sad" badTurn) 1 = 50 := by
  decide

/-- C9 amended: the turn-processing update is identical whichever user id
submits it - the counters are process-wide - so a turn by any user changes
the score observed by every user exactly as a turn of their own would
(noninterference between users does not hold). -/
theorem turn_update_user_independent (s : ServerState) (u1 u2 : Nat)
    (text : String) (a : Analysis) :
    chatStep s u1 text a = chatStep s u2 text a ∧
    scoreSeenBy (chatStep s u2 text a) u1 = scoreSeenBy (chatStep s u2 text a) u2 :=
  ⟨rfl, rfl⟩

/-- The per-sentence loop of `evaluateGrammar` yields the same deductions
and issues for any two random streams with values in `[0, 1)`. -/
lemma evalSentences_eq (sents : List String) (r1 r2 : ℕ → ℚ)
    (h1 : ∀ n, 0 ≤ r1 n ∧ r1 n < 1) (h2 : ∀ n, 0 ≤ r2 n ∧ r2 n < 1) :
    ∀ k1 k2, evalSentences r1 sents k1 = evalSentences r2 sents k2 := by
  induction sents with
  | nil => intro k1 k2; rfl
  | cons s rest ih =>
    intro k1 k2
    unfold evalSentences
    by_cases hs : (jsTrim s).length > 0
    · simp only [hs, if_true]
      unfold analyzeSentenceStructure
      by_cases h3 : (jsSplitRegex isJsSpace (jsTrim s)).length < 3
      · simp [h3, ih k1 k2]
      · by_cases h25 : (jsSplitRegex isJsSpace (jsTrim s)).length > 25
        · simp [h3, h25, ih k1 k2]
        · have hn1 : ¬((85 : ℚ) + r1 k1 * 15 < 80) := by
            have := (h1 k1).1
            nlinarith
          have hn2 : ¬((85 : ℚ) + r2 k2 * 15 < 80) := by
            have := (h2 k2).1
            nlinarith
          simp [h3, h25, hn1, hn2, ih (k1 + 1) (k2 + 1)]
    · simp [hs, ih k1 k2]

/-- C10: the score and issue list of `evaluateGrammar` are uniquely
determined by the text - two runs with any valid `Math.random` streams
agree - because `analyzeSentenceStructure` only consults the stream for
sentences of 3 to 25 words, where its score lies in `[85, 100)` and never
crosses the below-80 deduction threshold. -/
theorem evaluateGrammar_deterministic :
    (∀ (text : String) (r1 r2 : ℕ → ℚ),
      (∀ n, 0 ≤ r1 n ∧ r1 n < 1) → (∀ n, 0 ≤ r2 n ∧ r2 n < 1) →
      evaluateGrammar text r1 = evaluateGrammar text r2) ∧
    (∀ (sentence : String) (r : ℚ), 0 ≤ r → r < 1 →
      3 ≤ (jsSplitRegex isJsSpace (jsTrim sentence)).length →
      (jsSplitRegex isJsSpace (jsTrim sentence)).length ≤ 25 →
      85 ≤ (analyzeSentenceStructure sentence r).1 ∧
      (analyzeSentenceStructure sentence r).1 < 100) := by
  constructor
  · intro text r1 r2 h1 h2
    unfold evaluateGrammar
    rw [evalSentences_eq (jsSplitRegex isSentenceSep text) r1 r2 h1 h2 0 0]
  · intro s r hr0 hr1 h3 h25
    unfold analyzeSentenceStructure
    have hn3 : ¬((jsSplitRegex isJsSpace (jsTrim s)).length < 3) := by omega
    have hn25 : ¬((jsSplitRegex isJsSpace (jsTrim s)).length > 25) := by omega
    simp only [hn3, hn25, if_false]
    constructor
    · have : (0 : ℚ) ≤ r * 15 := by positivity
      linarith
    · have : r * 15 < 15 := by nlinarith
      linarith

/-- Witness for C10: two concrete streams (constant 0 and constant 1/2)
produce identical scores on a concrete text. -/
theorem evaluateGrammar_deterministic_witness :
    evaluateGrammar "I is happy. Hi." (fun _ => 0) =
      evaluateGrammar "I is happy. Hi." (fun _ => 1 / 2) :=
  evaluateGrammar_deterministic.1 "I is happy. Hi." _ _
    (fun _ => ⟨le_refl 0, zero_lt_one⟩)
    (fun _ => ⟨one_half_pos.le, one_half_lt_one⟩)

end RTSP
